import Mathlib

/-!
Verification of the vaer weather tool-server against its specification.

The development shallowly embeds the TypeScript source: pure functions become
Lean functions over `ℚ`/`ℤ`/`String`, JavaScript `undefined`/`null` become
`Option`, and JavaScript truthiness tests are spelled out where they occur.
Each section names the source file it embeds.
-/

namespace Vaer

/-! ## Error taxonomy (src/src/domain/types.ts, error-handler) -/

/-- Error codes, `ErrorCode` from `src/src/domain/types.ts`. The spec calls
`MET_API_UNAVAILABLE` the upstream-unavailable code (`UPSTREAM_UNAVAILABLE`). -/
inductive ErrorCode
  | INVALID_INPUT
  | OUT_OF_COVERAGE
  | RATE_LIMITED
  | MET_API_UNAVAILABLE
  | INTERNAL_ERROR
  deriving DecidableEq, Repr

/-- Known keys of the `details` object attached to a `WeatherError`
(`src/src/domain/types.ts`); the index-signature extras are not modelled. -/
structure ErrorDetails where
  upstreamStatus : Option Int
  requestId : Option String
  retryAfterSeconds : Option Int
  deriving DecidableEq, Repr

/-- Structured error record, `WeatherError` from `src/src/domain/types.ts`. -/
structure WeatherError where
  code : ErrorCode
  message : String
  retryable : Bool
  details : Option ErrorDetails
  deriving DecidableEq, Repr

/-- The `createWeatherError` constructor of the error-handler module:
`retryable` is computed from the code alone. -/
def createWeatherError (code : ErrorCode) (message : String)
    (details : Option ErrorDetails) : WeatherError :=
  { code := code
    message := message
    retryable := code = ErrorCode.RATE_LIMITED ∨ code = ErrorCode.MET_API_UNAVAILABLE
    details := details }

/-! ## Cache header parser (src/src/domain/cache-parser.ts) -/

/-- Cache status values recognised in the `X-Proxy-Cache` header. -/
inductive CacheStatus
  | HIT
  | MISS
  | EXPIRED
  | BYPASS
  deriving DecidableEq, Repr

/-- Cache metadata, `CacheMetadata` from `src/src/domain/types.ts` plus the
`status` field produced by the parser. -/
structure CacheMetadata where
  cached : Bool
  ageSeconds : Option Int
  status : Option CacheStatus
  deriving DecidableEq, Repr

/-- The two response headers the cache parser reads; `none` models an absent
header (`headers.get` returning `null`). -/
structure CacheHeaders where
  proxyCache : Option String
  age : Option String
  deriving DecidableEq, Repr

/-- ASCII uppercasing, modelling JavaScript `toUpperCase` on the ASCII range
(the only range the recognised header tokens use). -/
def toUpperAscii (s : String) : String :=
  ⟨s.data.map Char.toUpper⟩

/-- JavaScript `parseInt(s, 10)`: skip leading whitespace, read an optional
sign and then the maximal run of leading decimal digits; `none` models `NaN`
(no digits found). Trailing garbage is ignored, exactly as in JS. -/
def jsParseIntDec (s : String) : Option Int :=
  let cs := s.data.dropWhile Char.isWhitespace
  let (sign, rest) :=
    match cs with
    | '-' :: cs => ((-1 : Int), cs)
    | '+' :: cs => ((1 : Int), cs)
    | cs => ((1 : Int), cs)
  let digits := rest.takeWhile Char.isDigit
  if digits.isEmpty then none
  else some (sign * (digits.foldl (fun a c => 10 * a + (c.toNat - '0'.toNat)) (0 : Nat) : Nat))

/-- The `parseCacheHeaders` function of `src/src/domain/cache-parser.ts`.
The `if (proxyCacheHeader)` / `if (ageHeader)` truthiness tests are modelled
as "present and non-empty". -/
def parseCacheHeaders (headers : CacheHeaders) : CacheMetadata :=
  let (cached, status) :=
    match headers.proxyCache with
    | some s =>
      if s.isEmpty then (false, none) else
        let value := toUpperAscii s
        let status : Option CacheStatus :=
          if value = "HIT" then some CacheStatus.HIT
          else if value = "MISS" then some CacheStatus.MISS
          else if value = "EXPIRED" then some CacheStatus.EXPIRED
          else if value = "BYPASS" then some CacheStatus.BYPASS
          else none
        (value = "HIT" ∨ value = "EXPIRED", status)
    | none => (false, none)
  let ageSeconds : Option Int :=
    match headers.age with
    | some a =>
      if a.isEmpty then none else
        match jsParseIntDec a with
        | some parsed => if 0 ≤ parsed then some parsed else none
        | none => none
    | none => none
  { cached := cached, ageSeconds := ageSeconds, status := status }

/-- The present-and-nonempty header value, uppercased; `none` covers both an
absent header and the JS-falsy empty string. -/
def headerUpper (h : Option String) : Option String :=
  match h with
  | some s => if s.isEmpty then none else some (toUpperAscii s)
  | none => none

/-! ## Response builder (src/src/domain/response-builder.ts) -/

/-- MCP tool result, restricted to the parts the response builder writes:
the single text block, the structured error payload, and the error flag. -/
structure CallToolResult where
  contentText : String
  structuredError : Option WeatherError
  isError : Bool
  deriving DecidableEq, Repr

/-- The `buildErrorResponse` function. The source's
`error.details?.retryAfterSeconds ? ... : ...` is a truthiness test, so a
present value of `0` takes the bare-message branch. -/
def buildErrorResponse (error : WeatherError) : CallToolResult :=
  let textSummary :=
    match error.details.bind (fun d => d.retryAfterSeconds) with
    | some n =>
      if n = 0 then error.message
      else error.message ++ " Retry after " ++ toString n ++ " seconds."
    | none => error.message
  { contentText := textSummary
    structuredError := some error
    isError := true }

/-! ## Marine risk classifier (src/src/tools/marine-conditions.ts) -/

/-- Vessel types, the `VesselType` zod enum. -/
inductive VesselType
  | kayak
  | small_sailboat
  | motorboat
  | ship
  deriving DecidableEq, Repr

/-- Risk levels, the `RiskLevel` zod enum. -/
inductive RiskLevel
  | low
  | moderate
  | high
  | extreme
  deriving DecidableEq, Repr

/-- One row of the threshold table: a wave-height bound (m) and a current
bound (m/s). -/
structure ThresholdRow where
  wave : ℚ
  current : ℚ
  deriving DecidableEq, Repr

/-- The three rows for one vessel type. -/
structure VesselThresholds where
  low : ThresholdRow
  moderate : ThresholdRow
  high : ThresholdRow
  deriving DecidableEq, Repr

/-- The `RISK_THRESHOLDS` table of `src/src/tools/marine-conditions.ts`. -/
def RISK_THRESHOLDS : VesselType → VesselThresholds
  | VesselType.kayak =>
    { low := ⟨3/10, 5/10⟩, moderate := ⟨5/10, 1⟩, high := ⟨8/10, 3/2⟩ }
  | VesselType.small_sailboat =>
    { low := ⟨5/10, 1⟩, moderate := ⟨1, 2⟩, high := ⟨3/2, 3⟩ }
  | VesselType.motorboat =>
    { low := ⟨8/10, 3/2⟩, moderate := ⟨3/2, 5/2⟩, high := ⟨2, 4⟩ }
  | VesselType.ship =>
    { low := ⟨2, 3⟩, moderate := ⟨7/2, 5⟩, high := ⟨5, 7⟩ }

/-- The `assessRiskLevel` function, level component. The human-readable
`notes` strings built with `toFixed` are display-only and not modelled. -/
def assessRiskLevel (waveHeight waterSpeed : ℚ) (vesselType : VesselType) :
    RiskLevel :=
  let thresholds := RISK_THRESHOLDS vesselType
  if waveHeight ≥ thresholds.high.wave ∨ waterSpeed ≥ thresholds.high.current then
    RiskLevel.high
  else if waveHeight ≥ thresholds.moderate.wave ∨ waterSpeed ≥ thresholds.moderate.current then
    RiskLevel.moderate
  else
    RiskLevel.low

/-! ## Route-risk aggregation (assess-marine-trip, src/unnamed/part_009) -/

/-- Trip verdicts, the `TripRiskLevel` zod enum. -/
inductive TripRiskLevel
  | safe
  | caution
  | dangerous
  | extreme
  deriving DecidableEq, Repr

/-- A waypoint assessment; the `waypoint` coordinates are not read by the
aggregation and are left out. -/
structure WaypointAssessment where
  max_risk : RiskLevel
  hours_assessed : ℕ
  high_risk_hours : ℕ
  deriving DecidableEq, Repr

/-- The `riskToNumeric` map. -/
def riskToNumeric : RiskLevel → ℤ
  | RiskLevel.low => 0
  | RiskLevel.moderate => 1
  | RiskLevel.high => 2
  | RiskLevel.extreme => 3

/-- The `aggregateTripRisk` function. `Math.max()` over the empty spread is
`-Infinity`; any sentinel below every risk value (here `-1`) selects the same
branch, so the embedding agrees with the source on every input. -/
def aggregateTripRisk (waypointAssessments : List WaypointAssessment) :
    TripRiskLevel :=
  let maxRisk :=
    (waypointAssessments.map (fun w => riskToNumeric w.max_risk)).foldr max (-1)
  let highRiskWaypoints :=
    (waypointAssessments.filter (fun w => riskToNumeric w.max_risk ≥ 2)).length
  if maxRisk ≥ 3 then
    TripRiskLevel.extreme
  else if maxRisk ≥ 2 then
    if highRiskWaypoints ≥ 2 then TripRiskLevel.dangerous else TripRiskLevel.caution
  else if maxRisk ≥ 1 then
    TripRiskLevel.caution
  else
    TripRiskLevel.safe

/-- The trip verdict exactly as the claim words it: extreme on any extreme
waypoint, else dangerous on two or more waypoints at high or above, else
caution on any high, else caution on any moderate, else safe. -/
def aggregateTripRiskSpec (waypointAssessments : List WaypointAssessment) :
    TripRiskLevel :=
  if waypointAssessments.any (fun w => w.max_risk = RiskLevel.extreme) then
    TripRiskLevel.extreme
  else if (waypointAssessments.filter
      (fun w => riskToNumeric w.max_risk ≥ 2)).length ≥ 2 then
    TripRiskLevel.dangerous
  else if waypointAssessments.any (fun w => w.max_risk = RiskLevel.high) then
    TripRiskLevel.caution
  else if waypointAssessments.any (fun w => w.max_risk = RiskLevel.moderate) then
    TripRiskLevel.caution
  else
    TripRiskLevel.safe

/-- The `sampleWaypoints` function of assess-marine-trip. JavaScript
`Math.round` rounds half toward positive infinity, modelled by
`⌊q + 1/2⌋`; all indices produced for a route longer than `maxSamples`
are in bounds, so the `getD` default is never used. -/
def sampleWaypoints {α : Type} (route : List α) (maxSamples : ℕ := 5) :
    List α :=
  if route.length ≤ maxSamples then route
  else
    match route with
    | [] => []
    | d :: _ =>
      let step : ℚ := ((route.length : ℚ) - 1) / ((maxSamples : ℚ) - 1)
      let mid := (List.range (maxSamples - 2)).map
        (fun j => route.getD (⌊((j + 1 : ℚ)) * step + 1/2⌋.toNat) d)
      route.getD 0 d :: (mid ++ [route.getD (route.length - 1) d])

/-! ## Activity comfort scoring (src/src/tools/assess-outdoor-activity.ts) -/

/-- Comfort scores, the `ComfortScore` zod enum. -/
inductive ComfortScore
  | good
  | ok
  | poor
  deriving DecidableEq, Repr

/-- Activity thresholds, the `ActivityThresholds` interface. -/
structure ActivityThresholds where
  minTemp : ℚ
  maxTemp : ℚ
  maxWind : ℚ
  avoidHeavyRain : Bool
  deriving DecidableEq, Repr

/-- The result of `assessComfort`; the display-only `reason` string is not
modelled. -/
structure ComfortAssessment where
  score : ComfortScore
  temperature_ok : Bool
  wind_ok : Bool
  precipitation_ok : Bool
  deriving DecidableEq, Repr

/-- The `assessComfort` function of `src/src/tools/assess-outdoor-activity.ts`. -/
def assessComfort (temperature windSpeed precipitationRate : ℚ)
    (thresholds : ActivityThresholds) (avoidAllRain : Bool) :
    ComfortAssessment :=
  let temperature_ok : Bool :=
    temperature ≥ thresholds.minTemp ∧ temperature ≤ thresholds.maxTemp
  let wind_ok : Bool := windSpeed ≤ thresholds.maxWind
  let precipitation_ok : Bool :=
    if avoidAllRain then precipitationRate = 0
    else if thresholds.avoidHeavyRain then precipitationRate < 5/2
    else true
  let issueCount :=
    ([temperature_ok, wind_ok, precipitation_ok].filter (fun ok => !ok)).length
  let score :=
    if issueCount = 0 then ComfortScore.good
    else if issueCount = 1 then ComfortScore.ok
    else ComfortScore.poor
  { score := score
    temperature_ok := temperature_ok
    wind_ok := wind_ok
    precipitation_ok := precipitation_ok }

/-! ## Time-window resolution (location-forecast and marine-conditions) -/

/-- Time-window presets, the `TimeWindowPreset` zod enum. -/
inductive TimeWindowPreset
  | next_24h
  | next_48h
  | next_7d
  | full_available
  deriving DecidableEq, Repr

/-- A tool's time-window input (`TimeWindowSchema`); `fromTS`/`toTS` stand for
the `from`/`to` fields (`from` is reserved in Lean). -/
structure TimeWindow where
  kind : Option String
  fromTS : Option String
  toTS : Option String
  preset : Option TimeWindowPreset
  deriving DecidableEq, Repr

/-- Milliseconds in one hour, as used by the `Date` arithmetic in the source. -/
def hourMs : ℤ := 60 * 60 * 1000

/-- The `resolveTimeWindow` of the location-forecast tool, over epoch
milliseconds (the ISO rendering of the two instants is not modelled). The
`from`/`to` fields of the input are never read. -/
def resolveTimeWindowForecast (timeWindow : Option TimeWindow) (now : ℤ) :
    ℤ × ℤ :=
  match timeWindow with
  | none => (now, now + 48 * hourMs)
  | some tw =>
    match tw.preset with
    | none => (now, now + 48 * hourMs)
    | some preset =>
      let hours : ℤ :=
        match preset with
        | TimeWindowPreset.next_24h => 24
        | TimeWindowPreset.next_48h => 48
        | TimeWindowPreset.next_7d => 7 * 24
        | TimeWindowPreset.full_available => 10 * 24
      (now, now + hours * hourMs)

/-- The `resolveTimeWindow` of the marine-conditions tool: only `next_24h`
and `next_48h` are distinguished, everything else falls to the 48 h default.
The `from`/`to` fields of the input are never read. -/
def resolveTimeWindowMarine (timeWindow : Option TimeWindow) (now : ℤ) :
    ℤ × ℤ :=
  match timeWindow with
  | none => (now, now + 48 * hourMs)
  | some tw =>
    match tw.preset with
    | none => (now, now + 48 * hourMs)
    | some TimeWindowPreset.next_24h => (now, now + 24 * hourMs)
    | some TimeWindowPreset.next_48h => (now, now + 48 * hourMs)
    | some _ => (now, now + 48 * hourMs)

/-- Lexicographic order on character lists, by code point. -/
def charListLt : List Char → List Char → Bool
  | [], [] => false
  | [], _ :: _ => true
  | _ :: _, [] => false
  | a :: as, b :: bs =>
    if a.toNat < b.toNat then true
    else if b.toNat < a.toNat then false
    else charListLt as bs

/-- Lexicographic string order by code point; on two timestamps of the fixed
`YYYY-MM-DDTHH:MM:SSZ` shape this is chronological order. -/
def tsLt (a b : String) : Bool :=
  charListLt a.data b.data

/-- Numeric value of a two-digit group in a timestamp string. -/
def twoDigit (a b : Char) : ℕ :=
  10 * (a.toNat - '0'.toNat) + (b.toNat - '0'.toNat)

/-- Validity of an RFC-3339 UTC timestamp in the `YYYY-MM-DDTHH:MM:SSZ`
form: the shape the spec's examples use. For two strings of this fixed
shape, lexicographic string order coincides with chronological order. -/
def isRFC3339UTC (s : String) : Bool :=
  match s.data with
  | [y1, y2, y3, y4, s1, mo1, mo2, s2, d1, d2, t, h1, h2, s3, mi1, mi2, s4, se1, se2, z] =>
    [y1, y2, y3, y4, mo1, mo2, d1, d2, h1, h2, mi1, mi2, se1, se2].all Char.isDigit
    && s1 = '-' && s2 = '-' && t = 'T' && s3 = ':' && s4 = ':' && z = 'Z'
    && 1 ≤ twoDigit mo1 mo2 && twoDigit mo1 mo2 ≤ 12
    && 1 ≤ twoDigit d1 d2 && twoDigit d1 d2 ≤ 31
    && twoDigit h1 h2 ≤ 23 && twoDigit mi1 mi2 ≤ 59 && twoDigit se1 se2 ≤ 59
  | _ => false

/-- The validation verdict the spec demands of time-window resolution,
following the spec's words: when `from`/`to` are supplied without a preset,
both must be valid RFC-3339 UTC timestamps with `from < to`, otherwise
`INVALID_INPUT`. Inputs that do not supply both fields are not constrained
by the sentence and are accepted. -/
def timeWindowSpecVerdict (timeWindow : Option TimeWindow) :
    Except ErrorCode Unit :=
  match timeWindow with
  | none => Except.ok ()
  | some tw =>
    match tw.preset with
    | some _ => Except.ok ()
    | none =>
      match tw.fromTS, tw.toTS with
      | some f, some t =>
        if isRFC3339UTC f && isRFC3339UTC t && tsLt f t then Except.ok ()
        else Except.error ErrorCode.INVALID_INPUT
      | _, _ => Except.ok ()

/-! ## Place resolver (src/src/places/matcher.ts, db.ts, types.ts) -/

/-- Raw place record from the gazetteer database (`PlaceRecord` in
`src/src/places/types.ts`). SQLite booleans are 0/1 integers, matched with
`=== 1` in the source. -/
structure PlaceRecord where
  id : ℕ
  ssr_id : String
  primary_name : String
  alt_names : Option String
  lat : ℚ
  lon : ℚ
  place_class : Option String
  municipality_code : Option String
  municipality_name : Option String
  county_name : Option String
  population : Option ℤ
  is_county_seat : ℤ
  is_municipality_seat : ℤ
  importance_score : Option ℚ
  deriving DecidableEq, Repr

/-- Match type tags; `prefixMatch` stands for the source's `prefix` tag. -/
inductive MatchType
  | exact_primary
  | exact_alt
  | prefixMatch
  | fuzzy
  deriving DecidableEq, Repr

/-- Candidate place with match metadata (`PlaceCandidate`). -/
structure PlaceCandidate extends PlaceRecord where
  matchType : MatchType
  ftsRank : Option ℚ
  deriving DecidableEq, Repr

/-- FTS result row: a place record together with its `fts_rank`. -/
structure FtsRecord extends PlaceRecord where
  fts_rank : ℚ
  deriving DecidableEq, Repr

/-- Final matched place (`PlaceMatch`). `alt_names` is carried as the raw
JSON string; its decoding into a list is display-only and not modelled. -/
structure PlaceMatch where
  id : String
  name : String
  alt_names : Option String
  lat : ℚ
  lon : ℚ
  municipality_name : Option String
  municipality_code : Option String
  county_name : Option String
  place_class : Option String
  confidence : ℚ
  deriving DecidableEq, Repr

/-- Options for place name resolution (`ResolveOptions`). -/
structure ResolveOptions where
  query : String
  limit : ℕ
  preferredPlaceClasses : Option (List String)
  preferredMunicipalityCode : Option String
  deriving DecidableEq, Repr

/-- The gazetteer store seen through its three lookup primitives
(`PlacesDB` in `src/src/places/db.ts`); a fixed store determines the three
result lists for each normalised query. -/
structure PlacesDB where
  findExactPrimary : String → List PlaceRecord
  findExactAlt : String → List PlaceRecord
  findFTS : String → ℕ → List FtsRecord

/-- JavaScript `x || undefined` on an optional string: the empty string is
falsy and also maps to `undefined`. -/
def jsStringOrNone (s : Option String) : Option String :=
  match s with
  | some s => if s.isEmpty then none else some s
  | none => none

/-- The `normalizeNorwegian` function: lowercase, trim, collapse whitespace,
strip a trailing country name after a known city. Lowercasing is modelled on
the ASCII range (the Norwegian capitals Æ/Ø/Å lowercase in JS but are rare in
queries and irrelevant to the resolver claims, which hold for every
normalised string). After whitespace collapsing, the `\s*` of the suffix
regex can only match zero or one space. -/
def normalizeNorwegian (text : String) : String :=
  let lowered : String := ⟨text.data.map Char.toLower⟩
  let trimmed := lowered.trim
  let collapsed : String := ⟨(trimmed.data.foldl
    (fun (acc : List Char × Bool) c =>
      if c.isWhitespace then
        (if acc.2 then acc.1 else acc.1 ++ [' '], true)
      else (acc.1 ++ [c], false))
    ([], false)).1⟩
  let cities := ["oslo", "bergen", "trondheim", "stavanger", "tromsø", "drammen"]
  let suffixes := [",norge", ",norway", ", norge", ", norway"]
  match cities.findSome? (fun city =>
      suffixes.findSome? (fun suf =>
        if collapsed = city ++ suf then some city else none)) with
  | some city => city
  | none => collapsed

/-- The `mergeCandidates` function: exact-primary, then exact-alt, then FTS
results, deduplicated by record id, first occurrence keeping its match type.
FTS rows with negative rank are prefix matches, the rest fuzzy. -/
def mergeCandidates (exactPrimary exactAlt : List PlaceRecord)
    (ftsResults : List FtsRecord) : List PlaceCandidate :=
  let step1 := exactPrimary.foldl
    (fun (acc : List ℕ × List PlaceCandidate) r =>
      if r.id ∈ acc.1 then acc
      else (r.id :: acc.1, acc.2 ++ [{ toPlaceRecord := r, matchType := MatchType.exact_primary, ftsRank := none }]))
    ([], [])
  let step2 := exactAlt.foldl
    (fun (acc : List ℕ × List PlaceCandidate) r =>
      if r.id ∈ acc.1 then acc
      else (r.id :: acc.1, acc.2 ++ [{ toPlaceRecord := r, matchType := MatchType.exact_alt, ftsRank := none }]))
    step1
  let step3 := ftsResults.foldl
    (fun (acc : List ℕ × List PlaceCandidate) r =>
      if r.id ∈ acc.1 then acc
      else
        let matchType := if r.fts_rank < 0 then MatchType.prefixMatch else MatchType.fuzzy
        (r.id :: acc.1, acc.2 ++ [{ toPlaceRecord := r.toPlaceRecord, matchType := matchType, ftsRank := some |r.fts_rank| }]))
    step2
  step3.2

/-- The `applyFilters` function. The preferred-municipality bias is a stable
JavaScript sort by the boolean comparator `bMatch - aMatch`, which is exactly
the stable partition putting matching candidates first. -/
def applyFilters (candidates : List PlaceCandidate) (options : ResolveOptions) :
    List PlaceCandidate :=
  let filtered :=
    match options.preferredPlaceClasses with
    | some classes =>
      if classes.isEmpty then candidates
      else
        let preferred := candidates.filter (fun (c : PlaceCandidate) =>
          match c.place_class with
          | some pc => classes.contains pc
          | none => false)
        if preferred.isEmpty then candidates else preferred
    | none => candidates
  let biased :=
    match options.preferredMunicipalityCode with
    | some code =>
      filtered.filter (fun (c : PlaceCandidate) => c.municipality_code = some code)
        ++ filtered.filter (fun (c : PlaceCandidate) => ¬ c.municipality_code = some code)
    | none => filtered
  biased.take (options.limit * 2)

/-- The `assignConfidence` function: base score by match type, boosts for
administrative seats and importance, a per-index penalty, then a clamp to
`[0, 1]`. The unused `query` argument is kept for fidelity. -/
def assignConfidence (candidates : List PlaceCandidate) (_query : String) :
    List PlaceMatch :=
  candidates.enum.map (fun (ic : ℕ × PlaceCandidate) =>
    let index := ic.1
    let candidate := ic.2
    let base : ℚ :=
      match candidate.matchType with
      | MatchType.exact_primary => 1
      | MatchType.exact_alt => 85/100
      | MatchType.prefixMatch => 70/100
      | MatchType.fuzzy => 40/100 + min (30/100) ((candidate.ftsRank.getD 0) / 100)
    let boosted1 := if candidate.is_county_seat = 1 then base + 5/100 else base
    let boosted2 := if candidate.is_municipality_seat = 1 then boosted1 + 3/100 else boosted1
    let boosted3 :=
      match candidate.importance_score with
      | some imp => if 0 < imp then boosted2 + min (5/100) (imp / 10) else boosted2
      | none => boosted2
    let penalized := boosted3 - (index : ℚ) * (1/100)
    let confidence := max 0 (min 1 penalized)
    { id := candidate.ssr_id
      name := candidate.primary_name
      alt_names := candidate.alt_names
      lat := candidate.lat
      lon := candidate.lon
      municipality_name := jsStringOrNone candidate.municipality_name
      municipality_code := jsStringOrNone candidate.municipality_code
      county_name := jsStringOrNone candidate.county_name
      place_class := jsStringOrNone candidate.place_class
      confidence := confidence })

/-- The `resolveName` entry point of `src/src/places/matcher.ts`. -/
def resolveName (db : PlacesDB) (options : ResolveOptions) : List PlaceMatch :=
  let normalized := normalizeNorwegian options.query
  let exactPrimary := db.findExactPrimary normalized
  let exactAlt := db.findExactAlt normalized
  let ftsResults := db.findFTS normalized (options.limit * 3)
  let candidates := mergeCandidates exactPrimary exactAlt ftsResults
  let filtered := applyFilters candidates options
  let scored := assignConfidence filtered options.query
  scored.take options.limit

/-- Non-increasing confidence order, as the claim words it. -/
def confidenceSortedDesc (ms : List PlaceMatch) : Prop :=
  List.Chain' (fun a b => b.confidence ≤ a.confidence) ms

/-! ## Claim-side definitions and concrete inputs used by the theorems -/

/-- The threshold table exactly as the claim words it (vessel → low/mod/high
rows of wave and current bounds), transcribed from the claim's numbers. -/
def claimThresholds : VesselType → VesselThresholds
  | VesselType.kayak =>
    { low := ⟨3/10, 5/10⟩, moderate := ⟨5/10, 1⟩, high := ⟨8/10, 3/2⟩ }
  | VesselType.small_sailboat =>
    { low := ⟨5/10, 1⟩, moderate := ⟨1, 2⟩, high := ⟨3/2, 3⟩ }
  | VesselType.motorboat =>
    { low := ⟨8/10, 3/2⟩, moderate := ⟨3/2, 5/2⟩, high := ⟨2, 4⟩ }
  | VesselType.ship =>
    { low := ⟨2, 3⟩, moderate := ⟨7/2, 5⟩, high := ⟨5, 7⟩ }

/-- Number of violated component booleans of a comfort assessment, as the
claim counts them. -/
def violationCount (a : ComfortAssessment) : ℕ :=
  ([a.temperature_ok, a.wind_ok, a.precipitation_ok].filter (fun b => !b)).length

/-- The even-stride five-point sample the claim describes for routes longer
than five waypoints: first, the three round(i·(n−1)/4) intermediates, last. -/
def evenStrideSample {α : Type} (route : List α) : List α :=
  match route with
  | [] => []
  | d :: _ =>
    let n := route.length
    let step : ℚ := ((n : ℚ) - 1) / 4
    [route.getD 0 d,
     route.getD (⌊step + 1/2⌋.toNat) d,
     route.getD (⌊2 * step + 1/2⌋.toNat) d,
     route.getD (⌊3 * step + 1/2⌋.toNat) d,
     route.getD (n - 1) d]

/-- A plain gazetteer record used by the resolver examples: an exact
primary-name match with no boosts and no municipality code. -/
def exampleRecordA : PlaceRecord :=
  { id := 1, ssr_id := "A", primary_name := "alpha", alt_names := none
    lat := 0, lon := 0, place_class := none, municipality_code := none
    municipality_name := none, county_name := none, population := none
    is_county_seat := 0, is_municipality_seat := 0, importance_score := none }

/-- A second record, found by full-text search with a negative rank (a prefix
match) and carrying the municipality code the example query prefers. -/
def exampleRecordB : PlaceRecord :=
  { id := 2, ssr_id := "B", primary_name := "alphaville", alt_names := none
    lat := 0, lon := 0, place_class := none, municipality_code := some "1103"
    municipality_name := none, county_name := none, population := none
    is_county_seat := 0, is_municipality_seat := 0, importance_score := none }

/-- A fixed store for the resolver counterexample: the query matches record A
exactly and record B through full-text search. -/
def exampleDB : PlacesDB :=
  { findExactPrimary := fun _ => [exampleRecordA]
    findExactAlt := fun _ => []
    findFTS := fun _ _ => [{ toPlaceRecord := exampleRecordB, fts_rank := -1 }] }

/-- Resolver options preferring record B's municipality. -/
def exampleOptions : ResolveOptions :=
  { query := "alpha", limit := 5, preferredPlaceClasses := none
    preferredMunicipalityCode := some "1103" }

/-- A store answering only the exact-primary lookup, for the resolver
witness. -/
def plainDB : PlacesDB :=
  { findExactPrimary := fun _ => [exampleRecordA]
    findExactAlt := fun _ => []
    findFTS := fun _ _ => [] }

/-- Resolver options with no filters. -/
def plainOptions : ResolveOptions :=
  { query := "alpha", limit := 5, preferredPlaceClasses := none
    preferredMunicipalityCode := none }

/-- The match that `resolveName plainDB plainOptions` returns. -/
def plainMatch : PlaceMatch :=
  { id := "A", name := "alpha", alt_names := none, lat := 0, lon := 0
    municipality_name := none, municipality_code := none, county_name := none
    place_class := none, confidence := 1 }

/-- A rate-limit error whose details advertise a 30-second retry delay. -/
def exampleError30 : WeatherError :=
  createWeatherError ErrorCode.RATE_LIMITED "Rate limit exceeded."
    (some { upstreamStatus := some 429, requestId := none, retryAfterSeconds := some 30 })

/-- The same error with a zero retry delay. -/
def exampleError0 : WeatherError :=
  createWeatherError ErrorCode.RATE_LIMITED "Rate limit exceeded."
    (some { upstreamStatus := some 429, requestId := none, retryAfterSeconds := some 0 })

/-- An internal error with no details. -/
def exampleErrorNone : WeatherError :=
  createWeatherError ErrorCode.INTERNAL_ERROR "An internal error occurred." none

/-! ## Shared lemmas -/

/-- Folding `max` over a list with a sentinel below `k`: the fold reaches `k`
exactly when some element does. -/
theorem le_foldr_max_iff {l : List ℤ} {k s : ℤ} (hs : s < k) :
    k ≤ l.foldr max s ↔ ∃ x ∈ l, k ≤ x := by
  induction l with
  | nil =>
    simp only [List.foldr_nil, List.not_mem_nil, false_and, exists_false, iff_false]
    omega
  | cons a t ih => simp [List.foldr_cons, le_max_iff, ih]

/-- Numeric risk is at most 3. -/
theorem riskToNumeric_le_three (x : RiskLevel) : riskToNumeric x ≤ 3 := by
  cases x <;> decide

/-- Numeric risk reaches 3 only at `extreme`. -/
theorem three_le_riskToNumeric_iff (x : RiskLevel) :
    3 ≤ riskToNumeric x ↔ x = RiskLevel.extreme := by
  cases x <;> decide

/-- Numeric risk reaches 2 only at `high` or `extreme`. -/
theorem two_le_riskToNumeric_iff (x : RiskLevel) :
    2 ≤ riskToNumeric x ↔ x = RiskLevel.high ∨ x = RiskLevel.extreme := by
  cases x <;> decide

/-- Numeric risk reaches 1 only above `low`. -/
theorem one_le_riskToNumeric_iff (x : RiskLevel) :
    1 ≤ riskToNumeric x ↔
      x = RiskLevel.moderate ∨ x = RiskLevel.high ∨ x = RiskLevel.extreme := by
  cases x <;> decide

/-! ## Theorems for the claims -/

/-- C5: an error built by `createWeatherError` is retryable exactly for
`RATE_LIMITED` and `MET_API_UNAVAILABLE` (the spec's `UPSTREAM_UNAVAILABLE`),
and not retryable for `INVALID_INPUT`, `OUT_OF_COVERAGE` and
`INTERNAL_ERROR`, whatever the message and details. -/
theorem createWeatherError_retryable_iff (message : String)
    (details : Option ErrorDetails) :
    (createWeatherError ErrorCode.RATE_LIMITED message details).retryable = true
  ∧ (createWeatherError ErrorCode.MET_API_UNAVAILABLE message details).retryable = true
  ∧ (createWeatherError ErrorCode.INVALID_INPUT message details).retryable = false
  ∧ (createWeatherError ErrorCode.OUT_OF_COVERAGE message details).retryable = false
  ∧ (createWeatherError ErrorCode.INTERNAL_ERROR message details).retryable = false :=
  ⟨rfl, rfl, rfl, rfl, rfl⟩

/-- C10: `buildErrorResponse` always sets `isError` and embeds the full error
record; the text summary carries the "Retry after N seconds." suffix exactly
when `retryAfterSeconds` is present and non-zero, and is the bare message
when it is absent or zero. -/
theorem buildErrorResponse_shape (e : WeatherError) :
    (buildErrorResponse e).isError = true
  ∧ (buildErrorResponse e).structuredError = some e
  ∧ (∀ n : ℤ, e.details.bind (fun d => d.retryAfterSeconds) = some n → ¬ n = 0 →
      (buildErrorResponse e).contentText =
        e.message ++ " Retry after " ++ toString n ++ " seconds.")
  ∧ (e.details.bind (fun d => d.retryAfterSeconds) = some 0 →
      (buildErrorResponse e).contentText = e.message)
  ∧ (e.details.bind (fun d => d.retryAfterSeconds) = none →
      (buildErrorResponse e).contentText = e.message) := by
  refine ⟨rfl, rfl, ?_, ?_, ?_⟩
  · intro n h hn
    simp [buildErrorResponse, h, hn]
  · intro h
    simp [buildErrorResponse, h]
  · intro h
    simp [buildErrorResponse, h]

/-- Witness for C10 at three concrete errors: retry delay 30, retry delay 0,
and no details. -/
theorem buildErrorResponse_shape_witness :
    (buildErrorResponse exampleError30).contentText =
      exampleError30.message ++ " Retry after " ++ toString (30 : ℤ) ++ " seconds."
  ∧ (buildErrorResponse exampleError0).contentText = exampleError0.message
  ∧ (buildErrorResponse exampleErrorNone).contentText = exampleErrorNone.message :=
  ⟨(buildErrorResponse_shape exampleError30).2.2.1 30 rfl (by decide),
   (buildErrorResponse_shape exampleError0).2.2.2.1 rfl,
   (buildErrorResponse_shape exampleErrorNone).2.2.2.2 rfl⟩

/-- The source's numeric roll-up agrees with the claim's case analysis on
every assessment list. Shared by the C3 and C9 theorems. -/
theorem aggregateTripRisk_eq_spec (l : List WaypointAssessment) :
    aggregateTripRisk l = aggregateTripRiskSpec l := by
  have hmax : ∀ k : ℤ, -1 < k →
      ((k ≤ (l.map (fun w => riskToNumeric w.max_risk)).foldr max (-1)) ↔
        ∃ w ∈ l, k ≤ riskToNumeric w.max_risk) := by
    intro k hk
    rw [le_foldr_max_iff hk]
    constructor
    · rintro ⟨x, hx, hkx⟩
      obtain ⟨w, hw, rfl⟩ := List.mem_map.1 hx
      exact ⟨w, hw, hkx⟩
    · rintro ⟨w, hw, hkw⟩
      exact ⟨riskToNumeric w.max_risk, List.mem_map.2 ⟨w, hw, rfl⟩, hkw⟩
  have hanyIff : ∀ r : RiskLevel,
      ((l.any fun w => decide (w.max_risk = r)) = true) ↔ ∃ w ∈ l, w.max_risk = r := by
    intro r
    simp [List.any_eq_true]
  have hanyF : ∀ r : RiskLevel, (¬ ∃ w ∈ l, w.max_risk = r) →
      (l.any fun w => decide (w.max_risk = r)) = false := by
    intro r hr
    cases h : (l.any fun w => decide (w.max_risk = r)) with
    | true => exact absurd ((hanyIff r).1 h) hr
    | false => rfl
  simp only [aggregateTripRisk, aggregateTripRiskSpec]
  set M := (l.map (fun w => riskToNumeric w.max_risk)).foldr max (-1) with hMdef
  set cnt := (l.filter (fun w => riskToNumeric w.max_risk ≥ 2)).length with hcntdef
  by_cases hE : ∃ w ∈ l, w.max_risk = RiskLevel.extreme
  · have h3 : (3 : ℤ) ≤ M := by
      obtain ⟨w, hw, he⟩ := hE
      exact (hmax 3 (by norm_num)).2 ⟨w, hw, by rw [he]; decide⟩
    simp [ge_iff_le, h3, (hanyIff RiskLevel.extreme).2 hE]
  · have h3 : ¬ (3 : ℤ) ≤ M := by
      intro h
      obtain ⟨w, hw, hx⟩ := (hmax 3 (by norm_num)).1 h
      exact hE ⟨w, hw, (three_le_riskToNumeric_iff _).1 hx⟩
    by_cases hC : 2 ≤ cnt
    · have hex : ∃ w ∈ l, 2 ≤ riskToNumeric w.max_risk := by
        have hne : (l.filter (fun w => riskToNumeric w.max_risk ≥ 2)) ≠ [] := by
          intro h0
          rw [hcntdef, h0] at hC
          simp at hC
        obtain ⟨w, hw⟩ := List.exists_mem_of_ne_nil _ hne
        have hmem := List.mem_filter.1 hw
        exact ⟨w, hmem.1, by simpa using hmem.2⟩
      have h2 : (2 : ℤ) ≤ M := (hmax 2 (by norm_num)).2 hex
      simp [ge_iff_le, h3, h2, hC, hanyF RiskLevel.extreme hE]
    · by_cases hH : ∃ w ∈ l, w.max_risk = RiskLevel.high
      · have h2 : (2 : ℤ) ≤ M := by
          obtain ⟨w, hw, he⟩ := hH
          exact (hmax 2 (by norm_num)).2 ⟨w, hw, by rw [he]; decide⟩
        simp [ge_iff_le, h3, h2, hC, hanyF RiskLevel.extreme hE,
          (hanyIff RiskLevel.high).2 hH]
      · have h2 : ¬ (2 : ℤ) ≤ M := by
          intro h
          obtain ⟨w, hw, hx⟩ := (hmax 2 (by norm_num)).1 h
          rcases (two_le_riskToNumeric_iff _).1 hx with hh | hh
          · exact hH ⟨w, hw, hh⟩
          · exact hE ⟨w, hw, hh⟩
        by_cases hM : ∃ w ∈ l, w.max_risk = RiskLevel.moderate
        · have h1 : (1 : ℤ) ≤ M := by
            obtain ⟨w, hw, he⟩ := hM
            exact (hmax 1 (by norm_num)).2 ⟨w, hw, by rw [he]; decide⟩
          simp [ge_iff_le, h3, h2, hC, h1, hanyF RiskLevel.extreme hE,
            hanyF RiskLevel.high hH, (hanyIff RiskLevel.moderate).2 hM]
        · have h1 : ¬ (1 : ℤ) ≤ M := by
            intro h
            obtain ⟨w, hw, hx⟩ := (hmax 1 (by norm_num)).1 h
            rcases (one_le_riskToNumeric_iff _).1 hx with hh | hh | hh
            · exact hM ⟨w, hw, hh⟩
            · exact hH ⟨w, hw, hh⟩
            · exact hE ⟨w, hw, hh⟩
          simp [ge_iff_le, h3, h2, hC, h1, hanyF RiskLevel.extreme hE,
            hanyF RiskLevel.high hH, hanyF RiskLevel.moderate hM]

/-- C3: on any waypoint-assessment list (non-empty or not) the trip verdict
is exactly the claim's case split: extreme on any extreme waypoint, else
dangerous on two or more waypoints at high or above, else caution on any
high, else caution on any moderate, else safe. -/
theorem aggregateTripRisk_matches_claim (l : List WaypointAssessment) :
    aggregateTripRisk l = aggregateTripRiskSpec l :=
  aggregateTripRisk_eq_spec l

/-- C9: the per-point marine classifier never returns `extreme` — its three
exits are `high`, `moderate` and `low` — so every hour and hotspot derived
from it carries a level in {low, moderate, high}, and a trip whose waypoint
maxima avoid `extreme` never rolls up to the `extreme` verdict. -/
theorem assessRiskLevel_never_extreme (waveHeight waterSpeed : ℚ)
    (vesselType : VesselType) (l : List WaypointAssessment) :
    ¬ assessRiskLevel waveHeight waterSpeed vesselType = RiskLevel.extreme
  ∧ ((∀ w ∈ l, ¬ w.max_risk = RiskLevel.extreme) →
      ¬ aggregateTripRisk l = TripRiskLevel.extreme) := by
  constructor
  · simp only [assessRiskLevel]
    split_ifs <;> simp
  · intro hnoext
    rw [aggregateTripRisk_eq_spec]
    simp only [aggregateTripRiskSpec]
    have hEf : (l.any fun w => decide (w.max_risk = RiskLevel.extreme)) = false := by
      cases h : (l.any fun w => decide (w.max_risk = RiskLevel.extreme)) with
      | true =>
        obtain ⟨w, hw, he⟩ := by simpa [List.any_eq_true] using h
        exact absurd he (hnoext w hw)
      | false => rfl
    rw [hEf]
    split_ifs <;> simp_all

/-- Witness for C9 at a concrete input: a kayak in 10 m waves is rated
`high`, not `extreme`, and a route of two high-risk waypoints rolls up to
`dangerous`, not `extreme`. -/
theorem assessRiskLevel_never_extreme_witness :
    ¬ assessRiskLevel 10 0 VesselType.kayak = RiskLevel.extreme
  ∧ ¬ aggregateTripRisk
      [{ max_risk := RiskLevel.high, hours_assessed := 1, high_risk_hours := 1 },
       { max_risk := RiskLevel.high, hours_assessed := 1, high_risk_hours := 1 }] =
      TripRiskLevel.extreme :=
  ⟨(assessRiskLevel_never_extreme 10 0 VesselType.kayak []).1,
   (assessRiskLevel_never_extreme 10 0 VesselType.kayak
      [{ max_risk := RiskLevel.high, hours_assessed := 1, high_risk_hours := 1 },
       { max_risk := RiskLevel.high, hours_assessed := 1, high_risk_hours := 1 }]).2
     (by decide)⟩

/-- C4: the risk classifier returns `high` exactly when wave or current is at
or above the vessel's high bounds, `moderate` exactly when neither high bound
is reached but a moderate bound is, and `low` otherwise; the comparisons are
inclusive and the code's threshold table equals the claim's table. -/
theorem assessRiskLevel_tiers (w c : ℚ) (v : VesselType) :
    RISK_THRESHOLDS v = claimThresholds v
  ∧ (assessRiskLevel w c v = RiskLevel.high ↔
      (claimThresholds v).high.wave ≤ w ∨ (claimThresholds v).high.current ≤ c)
  ∧ (assessRiskLevel w c v = RiskLevel.moderate ↔
      ¬((claimThresholds v).high.wave ≤ w ∨ (claimThresholds v).high.current ≤ c)
      ∧ ((claimThresholds v).moderate.wave ≤ w ∨ (claimThresholds v).moderate.current ≤ c))
  ∧ (assessRiskLevel w c v = RiskLevel.low ↔
      ¬((claimThresholds v).high.wave ≤ w ∨ (claimThresholds v).high.current ≤ c)
      ∧ ¬((claimThresholds v).moderate.wave ≤ w ∨ (claimThresholds v).moderate.current ≤ c)) := by
  have hth : RISK_THRESHOLDS v = claimThresholds v := by
    cases v <;> rfl
  refine ⟨hth, ?_, ?_, ?_⟩ <;>
  · simp only [assessRiskLevel, hth, ge_iff_le]
    split_ifs with h1 h2 <;> simp_all

/-- Witness for C4: a kayak with waves exactly at the 0.8 m high bound is
rated `high` (inclusive comparison), and exactly at the 0.5 m moderate bound
with calm current is rated `moderate`. -/
theorem assessRiskLevel_tiers_witness :
    assessRiskLevel (8/10) 0 VesselType.kayak = RiskLevel.high
  ∧ assessRiskLevel (5/10) 0 VesselType.kayak = RiskLevel.moderate :=
  ⟨(assessRiskLevel_tiers (8/10) 0 VesselType.kayak).2.1.mpr
     (Or.inl (by norm_num [claimThresholds])),
   (assessRiskLevel_tiers (5/10) 0 VesselType.kayak).2.2.1.mpr
     ⟨by norm_num [claimThresholds], Or.inl (by norm_num [claimThresholds])⟩⟩

/-- The good/ok/poor chain on an abstract violation count. -/
theorem score_chain_characterisation (cnt : ℕ) :
    ((if cnt = 0 then ComfortScore.good
      else if cnt = 1 then ComfortScore.ok else ComfortScore.poor) =
        ComfortScore.good ↔ cnt = 0)
  ∧ ((if cnt = 0 then ComfortScore.good
      else if cnt = 1 then ComfortScore.ok else ComfortScore.poor) =
        ComfortScore.ok ↔ cnt = 1)
  ∧ ((if cnt = 0 then ComfortScore.good
      else if cnt = 1 then ComfortScore.ok else ComfortScore.poor) =
        ComfortScore.poor ↔ 2 ≤ cnt) := by
  refine ⟨?_, ?_, ?_⟩
  · split_ifs with h0 h1
    · exact iff_of_true rfl h0
    · exact iff_of_false (by decide) h0
    · exact iff_of_false (by decide) h0
  · split_ifs with h0 h1
    · exact iff_of_false (by decide) (by omega)
    · exact iff_of_true rfl h1
    · exact iff_of_false (by decide) h1
  · split_ifs with h0 h1
    · exact iff_of_false (by decide) (by omega)
    · exact iff_of_false (by decide) (by omega)
    · exact iff_of_true rfl (by omega)

/-- C7: for every hourly slot, `temperature_ok` holds exactly on the closed
temperature interval, `wind_ok` holds exactly up to and including `maxWind`,
`precipitation_ok` is the conjunction of the two rain implications, and the
score is good/ok/poor according to 0, 1, or at least 2 violated booleans. -/
theorem assessComfort_components (T w rate : ℚ) (th : ActivityThresholds)
    (avoidAllRain : Bool) :
    ((assessComfort T w rate th avoidAllRain).temperature_ok = true ↔
      th.minTemp ≤ T ∧ T ≤ th.maxTemp)
  ∧ ((assessComfort T w rate th avoidAllRain).wind_ok = true ↔ w ≤ th.maxWind)
  ∧ ((assessComfort T w rate th avoidAllRain).precipitation_ok = true ↔
      ((avoidAllRain = true → rate = 0) ∧ (th.avoidHeavyRain = true → rate < 5/2)))
  ∧ ((assessComfort T w rate th avoidAllRain).score = ComfortScore.good ↔
      violationCount (assessComfort T w rate th avoidAllRain) = 0)
  ∧ ((assessComfort T w rate th avoidAllRain).score = ComfortScore.ok ↔
      violationCount (assessComfort T w rate th avoidAllRain) = 1)
  ∧ ((assessComfort T w rate th avoidAllRain).score = ComfortScore.poor ↔
      2 ≤ violationCount (assessComfort T w rate th avoidAllRain)) := by
  refine ⟨?_, ?_, ?_, ?_, ?_, ?_⟩
  · simp [assessComfort, ge_iff_le]
  · simp [assessComfort]
  · cases hA : avoidAllRain <;> cases hH : th.avoidHeavyRain <;>
      simp [assessComfort, hH]
    intro h0
    rw [h0]
    norm_num
  · simp only [assessComfort, violationCount]
    exact (score_chain_characterisation _).1
  · simp only [assessComfort, violationCount]
    exact (score_chain_characterisation _).2.1
  · simp only [assessComfort, violationCount]
    exact (score_chain_characterisation _).2.2

/-- Witness for C7 at a concrete slot: 8 °C, wind exactly at the 10 m/s
bound, no rain, against the running profile — all three booleans hold. -/
theorem assessComfort_components_witness :
    (assessComfort 8 10 0 ⟨5, 20, 10, true⟩ false).wind_ok = true
  ∧ (assessComfort 8 10 0 ⟨5, 20, 10, true⟩ false).temperature_ok = true
  ∧ (assessComfort 8 10 0 ⟨5, 20, 10, true⟩ false).precipitation_ok = true :=
  ⟨(assessComfort_components 8 10 0 ⟨5, 20, 10, true⟩ false).2.1.mpr (by norm_num),
   (assessComfort_components 8 10 0 ⟨5, 20, 10, true⟩ false).1.mpr
     ⟨by norm_num, by norm_num⟩,
   (assessComfort_components 8 10 0 ⟨5, 20, 10, true⟩ false).2.2.1.mpr
     ⟨by simp, fun _ => by norm_num⟩⟩

deriving instance DecidableEq for Except

/-- C2, behaviour the code actually has: both `resolveTimeWindow`
implementations ignore `from`/`to` entirely — without a preset the window is
always `[now, now+48h]`, whatever `from`/`to` contain (no `INVALID_INPUT` is
ever produced), and with any input the result depends only on the preset. -/
theorem resolveTimeWindow_ignores_explicit_bounds (k f t : Option String)
    (tw : TimeWindow) (now : ℤ) :
    resolveTimeWindowForecast none now = (now, now + 48 * hourMs)
  ∧ resolveTimeWindowMarine none now = (now, now + 48 * hourMs)
  ∧ resolveTimeWindowForecast (some ⟨k, f, t, none⟩) now = (now, now + 48 * hourMs)
  ∧ resolveTimeWindowMarine (some ⟨k, f, t, none⟩) now = (now, now + 48 * hourMs)
  ∧ resolveTimeWindowForecast (some tw) now =
      resolveTimeWindowForecast (some { tw with fromTS := none, toTS := none }) now
  ∧ resolveTimeWindowMarine (some tw) now =
      resolveTimeWindowMarine (some { tw with fromTS := none, toTS := none }) now := by
  obtain ⟨k', f', t', p⟩ := tw
  refine ⟨rfl, rfl, rfl, rfl, ?_, ?_⟩
  · cases p with
    | none => rfl
    | some q => cases q <;> rfl
  · cases p with
    | none => rfl
    | some q => cases q <;> rfl

/-- Counterexample for C2 as stated: the input supplies two valid RFC-3339
UTC timestamps with `from` after `to` and no preset, so the claim demands an
`INVALID_INPUT` failure (as the spec-side verdict shows); both tools instead
resolve it successfully to the default `[now, now+48h]` window. -/
theorem resolveTimeWindow_claim_counterexample :
    timeWindowSpecVerdict
      (some { kind := none, fromTS := some "2024-06-01T00:00:00Z"
              toTS := some "2020-01-01T00:00:00Z", preset := none }) =
      Except.error ErrorCode.INVALID_INPUT
  ∧ resolveTimeWindowForecast
      (some { kind := none, fromTS := some "2024-06-01T00:00:00Z"
              toTS := some "2020-01-01T00:00:00Z", preset := none }) 0 =
      (0, 172800000)
  ∧ resolveTimeWindowMarine
      (some { kind := none, fromTS := some "2024-06-01T00:00:00Z"
              toTS := some "2020-01-01T00:00:00Z", preset := none }) 0 =
      (0, 172800000) := by
  refine ⟨by decide, by decide, by decide⟩

/-- The head of a list is a member. -/
theorem mem_of_head?_eq {α : Type} {l : List α} {x : α}
    (h : l.head? = some x) : x ∈ l := by
  cases l with
  | nil => simp at h
  | cons a t =>
    simp only [List.head?_cons, Option.some.injEq] at h
    exact h ▸ List.mem_cons_self a t

/-- The last element of a list is a member. -/
theorem mem_of_getLast?_eq {α : Type} {l : List α} {x : α}
    (h : l.getLast? = some x) : x ∈ l := by
  induction l with
  | nil => simp at h
  | cons a t ih =>
    cases t with
    | nil =>
      simp only [List.getLast?_singleton, Option.some.injEq] at h
      exact h ▸ List.mem_singleton_self a
    | cons b t' =>
      rw [List.getLast?_cons_cons] at h
      exact List.mem_cons_of_mem a (ih h)

/-- Indexing at `length - 1` recovers the last element. -/
theorem getD_length_sub_one_eq {α : Type} {l : List α} {x : α} (d : α)
    (h : l.getLast? = some x) : l.getD (l.length - 1) d = x := by
  induction l with
  | nil => simp at h
  | cons a t ih =>
    cases t with
    | nil =>
      simp only [List.getLast?_singleton, Option.some.injEq] at h
      simpa using h
    | cons b t' =>
      rw [List.getLast?_cons_cons] at h
      have hlen : (a :: b :: t').length - 1 = ((b :: t').length - 1) + 1 := by
        simp [List.length_cons]
      rw [hlen, List.getD_cons_succ]
      exact ih h

/-- C8: the route sampler returns at most `min 5 n` waypoints, always keeps
the first and last waypoints, and for routes longer than five is exactly the
deterministic even-stride five-point sample. -/
theorem sampleWaypoints_bounds {α : Type} (route : List α)
    (h2 : 2 ≤ route.length) :
    (sampleWaypoints route 5).length ≤ min 5 route.length
  ∧ (∀ x, route.head? = some x → x ∈ sampleWaypoints route 5)
  ∧ (∀ x, route.getLast? = some x → x ∈ sampleWaypoints route 5)
  ∧ (5 < route.length → sampleWaypoints route 5 = evenStrideSample route) := by
  by_cases h5 : route.length ≤ 5
  · have hs : sampleWaypoints route 5 = route := by
      simp [sampleWaypoints, h5]
    refine ⟨?_, ?_, ?_, ?_⟩
    · rw [hs]
      exact le_min h5 le_rfl
    · intro x hx
      rw [hs]
      exact mem_of_head?_eq hx
    · intro x hx
      rw [hs]
      exact mem_of_getLast?_eq hx
    · intro h
      omega
  · cases route with
    | nil => simp at h2
    | cons d rest =>
      have h5r : ¬ rest.length ≤ 4 := by
        simp only [List.length_cons] at h5
        omega
      refine ⟨?_, ?_, ?_, ?_⟩
      · simp [sampleWaypoints, h5r, List.range_succ]
        omega
      · intro x hx
        simp only [List.head?_cons, Option.some.injEq] at hx
        subst hx
        simp [sampleWaypoints, h5r]
      · intro x hx
        have hg := getD_length_sub_one_eq (d := d) hx
        simp only [List.length_cons, Nat.add_sub_cancel] at hg
        simp [sampleWaypoints, h5r, List.mem_cons, List.mem_append,
          List.getD_eq_getElem?_getD]
        right
        right
        rw [← hg]
        simp [List.getD_eq_getElem?_getD]
      · intro h
        simp only [sampleWaypoints, evenStrideSample, if_neg h5]
        simp [List.range_succ]
        norm_num

/-- Witness for C8 on a concrete seven-waypoint route: at most five samples,
the endpoints 0 and 6 are kept, and the sample is the even-stride one. -/
theorem sampleWaypoints_bounds_witness :
    (sampleWaypoints [0, 1, 2, 3, 4, 5, 6] 5).length ≤ min 5 7
  ∧ (0 : ℕ) ∈ sampleWaypoints [0, 1, 2, 3, 4, 5, 6] 5
  ∧ (6 : ℕ) ∈ sampleWaypoints [0, 1, 2, 3, 4, 5, 6] 5
  ∧ sampleWaypoints [0, 1, 2, 3, 4, 5, 6] 5 =
      evenStrideSample [0, 1, 2, 3, 4, 5, 6] := by
  obtain ⟨ha, hb, hc, hd⟩ :=
    sampleWaypoints_bounds ([0, 1, 2, 3, 4, 5, 6] : List ℕ) (by decide)
  exact ⟨ha, hb 0 rfl, hc 6 (by decide), hd (by decide)⟩

/-- C6: the parser reports `cached` exactly for a present proxy-status header
reading HIT or EXPIRED up to case, sets `status` for the four recognised
values and leaves it undefined otherwise, and only ever yields a non-negative
`ageSeconds`, with `"0"` parsing to 0 and `"-1"`/`"abc"` to undefined. -/
theorem parseCacheHeaders_mapping (p a : Option String) :
    ((parseCacheHeaders ⟨p, a⟩).cached = true ↔
      headerUpper p = some "HIT" ∨ headerUpper p = some "EXPIRED")
  ∧ (headerUpper p = some "HIT" →
      (parseCacheHeaders ⟨p, a⟩).status = some CacheStatus.HIT)
  ∧ (headerUpper p = some "EXPIRED" →
      (parseCacheHeaders ⟨p, a⟩).status = some CacheStatus.EXPIRED)
  ∧ (headerUpper p = some "MISS" →
      (parseCacheHeaders ⟨p, a⟩).cached = false
      ∧ (parseCacheHeaders ⟨p, a⟩).status = some CacheStatus.MISS)
  ∧ (headerUpper p = some "BYPASS" →
      (parseCacheHeaders ⟨p, a⟩).cached = false
      ∧ (parseCacheHeaders ⟨p, a⟩).status = some CacheStatus.BYPASS)
  ∧ ((∀ v ∈ (["HIT", "MISS", "EXPIRED", "BYPASS"] : List String),
        ¬ headerUpper p = some v) →
      (parseCacheHeaders ⟨p, a⟩).cached = false
      ∧ (parseCacheHeaders ⟨p, a⟩).status = none)
  ∧ (∀ n : ℤ, (parseCacheHeaders ⟨p, a⟩).ageSeconds = some n → 0 ≤ n)
  ∧ (parseCacheHeaders ⟨p, some "0"⟩).ageSeconds = some 0
  ∧ (parseCacheHeaders ⟨p, some "-1"⟩).ageSeconds = none
  ∧ (parseCacheHeaders ⟨p, some "abc"⟩).ageSeconds = none := by
  have hage : ∀ q : Option String, ∀ n : ℤ,
      (parseCacheHeaders ⟨q, a⟩).ageSeconds = some n → 0 ≤ n := by
    intro q n h
    simp only [parseCacheHeaders] at h
    cases a with
    | none => simp at h
    | some s =>
      by_cases hs : s.isEmpty
      · simp [hs] at h
      · simp only [hs, if_false] at h
        cases hp : jsParseIntDec s with
        | none => rw [hp] at h; simp at h
        | some v =>
          rw [hp] at h
          simp only [Bool.false_eq_true, if_false, Option.ite_none_right_eq_some,
            Option.some.injEq] at h
          omega
  have hconc : ∀ s : String,
      (parseCacheHeaders ⟨p, some s⟩).ageSeconds =
        (if s.isEmpty then none else
          match jsParseIntDec s with
          | some parsed => if 0 ≤ parsed then some parsed else none
          | none => none) := by
    intro s
    simp only [parseCacheHeaders]
  rcases p with _ | s
  · refine ⟨by simp [parseCacheHeaders, headerUpper], ?_, ?_, ?_, ?_, ?_, hage none, ?_, ?_, ?_⟩
    · intro h; simp [headerUpper] at h
    · intro h; simp [headerUpper] at h
    · intro h; simp [headerUpper] at h
    · intro h; simp [headerUpper] at h
    · intro _; exact ⟨rfl, rfl⟩
    · rw [hconc]; decide
    · rw [hconc]; decide
    · rw [hconc]; decide
  · by_cases hs : s.isEmpty
    · refine ⟨by simp [parseCacheHeaders, headerUpper, hs], ?_, ?_, ?_, ?_, ?_,
        hage (some s), ?_, ?_, ?_⟩
      · intro h; simp [headerUpper, hs] at h
      · intro h; simp [headerUpper, hs] at h
      · intro h; simp [headerUpper, hs] at h
      · intro h; simp [headerUpper, hs] at h
      · intro _
        constructor <;> simp [parseCacheHeaders, hs]
      · rw [hconc]; decide
      · rw [hconc]; decide
      · rw [hconc]; decide
    · have hup : headerUpper (some s) = some (toUpperAscii s) := by
        simp [headerUpper, hs]
      refine ⟨?_, ?_, ?_, ?_, ?_, ?_, hage (some s), ?_, ?_, ?_⟩
      · simp only [parseCacheHeaders, hs, if_false, hup, Option.some.injEq]
        by_cases h1 : toUpperAscii s = "HIT" <;>
          by_cases h2 : toUpperAscii s = "EXPIRED" <;>
            simp [h1, h2]
      · intro h
        rw [hup, Option.some.injEq] at h
        simp [parseCacheHeaders, hs, h]
      · intro h
        rw [hup, Option.some.injEq] at h
        have hne : ¬ toUpperAscii s = "HIT" := by rw [h]; decide
        have hne2 : ¬ toUpperAscii s = "MISS" := by rw [h]; decide
        simp [parseCacheHeaders, hs, h, hne, hne2]
      · intro h
        rw [hup, Option.some.injEq] at h
        have hne : ¬ toUpperAscii s = "HIT" := by rw [h]; decide
        have hne2 : ¬ toUpperAscii s = "EXPIRED" := by rw [h]; decide
        exact ⟨by simp [parseCacheHeaders, hs, hne, hne2],
          by simp [parseCacheHeaders, hs, h, hne]⟩
      · intro h
        rw [hup, Option.some.injEq] at h
        have hne : ¬ toUpperAscii s = "HIT" := by rw [h]; decide
        have hne2 : ¬ toUpperAscii s = "EXPIRED" := by rw [h]; decide
        have hne3 : ¬ toUpperAscii s = "MISS" := by rw [h]; decide
        exact ⟨by simp [parseCacheHeaders, hs, hne, hne2],
          by simp [parseCacheHeaders, hs, h, hne, hne3]⟩
      · intro hall
        have h1 := hall "HIT" (by simp)
        have h2 := hall "MISS" (by simp)
        have h3 := hall "EXPIRED" (by simp)
        have h4 := hall "BYPASS" (by simp)
        rw [hup] at h1 h2 h3 h4
        simp only [Option.some.injEq] at h1 h2 h3 h4
        exact ⟨by simp [parseCacheHeaders, hs, h1, h3],
          by simp [parseCacheHeaders, hs, h1, h2, h3, h4]⟩
      · rw [hconc]; decide
      · rw [hconc]; decide
      · rw [hconc]; decide

/-- Witness for C6 at concrete headers: a mixed-case `Hit` is recognised as a
cache hit with `Age: 0` parsing to zero, while an unrecognised value leaves
`cached` false and `status` undefined. -/
theorem parseCacheHeaders_mapping_witness :
    (parseCacheHeaders ⟨some "Hit", some "0"⟩).cached = true
  ∧ (parseCacheHeaders ⟨some "Hit", some "0"⟩).status = some CacheStatus.HIT
  ∧ (parseCacheHeaders ⟨some "Hit", some "0"⟩).ageSeconds = some 0
  ∧ (parseCacheHeaders ⟨some "weird", some "abc"⟩).cached = false
  ∧ (parseCacheHeaders ⟨some "weird", some "abc"⟩).status = none
  ∧ (0 : ℤ) ≤ 0 := by
  obtain ⟨h1, h2, -, -, -, -, h7, h8, -, -⟩ :=
    parseCacheHeaders_mapping (some "Hit") (some "0")
  obtain ⟨-, -, -, -, -, h6, -, -, -, -⟩ :=
    parseCacheHeaders_mapping (some "weird") (some "abc")
  have hu : headerUpper (some "Hit") = some "HIT" := by decide
  have hw : ∀ v ∈ (["HIT", "MISS", "EXPIRED", "BYPASS"] : List String),
      ¬ headerUpper (some "weird") = some v := by decide
  exact ⟨h1.mpr (Or.inl hu), h2 hu, h8, (h6 hw).1, (h6 hw).2, h7 0 h8⟩

/-- C1, the part that holds: a resolver answer never exceeds the requested
limit and every confidence is clamped into `[0, 1]`, on every store and
every option set. The ordering clause of the claim is refuted separately. -/
theorem resolveName_bounds (db : PlacesDB) (options : ResolveOptions) :
    (resolveName db options).length ≤ options.limit
  ∧ ∀ m ∈ resolveName db options, 0 ≤ m.confidence ∧ m.confidence ≤ 1 := by
  constructor
  · simp only [resolveName, List.length_take]
    exact min_le_left _ _
  · intro m hm
    simp only [resolveName] at hm
    have hm' := List.mem_of_mem_take hm
    simp only [assignConfidence, List.mem_map] at hm'
    obtain ⟨⟨i, c⟩, -, rfl⟩ := hm'
    exact ⟨le_max_left _ _, max_le (by norm_num) (min_le_left _ _)⟩

/-- The resolver's answer on the plain one-record store. -/
theorem resolveName_plain_eval : resolveName plainDB plainOptions = [plainMatch] := by
  simp [resolveName, plainDB, plainOptions, mergeCandidates, applyFilters,
    assignConfidence, jsStringOrNone, exampleRecordA, plainMatch,
    List.enum, List.enumFrom]

/-- Witness for C1 on the plain store: one result, within the limit, with
confidence 1 inside the unit interval. -/
theorem resolveName_bounds_witness :
    (resolveName plainDB plainOptions).length ≤ plainOptions.limit
  ∧ (0 ≤ plainMatch.confidence ∧ plainMatch.confidence ≤ 1) := by
  obtain ⟨h1, h2⟩ := resolveName_bounds plainDB plainOptions
  refine ⟨h1, h2 plainMatch ?_⟩
  rw [resolveName_plain_eval]
  exact List.mem_singleton_self _

/-- Counterexample for the ordering clause of C1: with a preferred
municipality, the stable bias sort puts a 0.70-confidence prefix match ahead
of a 0.99-confidence exact match, so the returned list is not sorted by
confidence descending. -/
theorem resolveName_claim_counterexample :
    (resolveName exampleDB exampleOptions).map PlaceMatch.confidence =
      [7/10, 99/100]
  ∧ ¬ confidenceSortedDesc (resolveName exampleDB exampleOptions) := by
  have heval : (resolveName exampleDB exampleOptions).map PlaceMatch.confidence =
      [7/10, 99/100] := by
    simp [resolveName, exampleDB, exampleOptions, mergeCandidates, applyFilters,
      assignConfidence, jsStringOrNone, exampleRecordA, exampleRecordB,
      List.enum, List.enumFrom]
    norm_num
  refine ⟨heval, ?_⟩
  intro hsort
  cases hl : resolveName exampleDB exampleOptions with
  | nil => rw [hl] at heval; simp at heval
  | cons x t =>
    cases t with
    | nil => rw [hl] at heval; simp at heval
    | cons y t2 =>
      cases t2 with
      | nil =>
        rw [hl] at heval
        rw [confidenceSortedDesc, hl] at hsort
        simp only [List.chain'_cons, List.chain'_singleton, and_true] at hsort
        simp only [List.map_cons, List.map_nil, List.cons.injEq, and_true] at heval
        rw [heval.1, heval.2] at hsort
        norm_num at hsort
      | cons z t3 => rw [hl] at heval; simp at heval

end Vaer
